import Mathlib

/-!
Verification of the TrustBridge backend (src/server/app.py) against its
natural-language specification.

Dates are modelled as natural numbers (days since an epoch, after
normalisation to UTC midnight); monetary amounts are rationals.
The Firestore ledger is modelled as an association list keyed by
(userId, loanId).
-/

namespace TrustBridge

/-! ## InterestCalculator (utils/loan_utils.calculate_total_due) -/

/-- Modelled from the spec: the function `calculate_total_due` is imported in
src/server/app.py from `utils.loan_utils`, whose source file is not present
in the repository snapshot. Per spec section 4.1 the overdue penalty rate is
a configuration constant; we fix the documented default of simple daily
interest at 1 percent per day late. -/
def penaltyRatePerDay : ℚ := 1 / 100

/-- Modelled from the spec: `utils.loan_utils.calculate_total_due` is missing
from the sources; modelled from spec section 4.1. Base amount due equals the
principal; if the evaluation date is strictly after the due date a per-day
overdue penalty accrues; fails with InvalidDateRange when the due date is
before the issue date. Pure and deterministic. -/
def calculate_total_due (principal : ℚ) (issueDate dueDate evaluationDate : Nat) :
    Except String ℚ :=
  if dueDate < issueDate then
    .error "InvalidDateRange"
  else if dueDate < evaluationDate then
    .ok (principal + principal * penaltyRatePerDay * ((evaluationDate - dueDate : Nat) : ℚ))
  else
    .ok principal

/-! ## DocumentEscrowReleaser (utils/loan_utils.check_and_release_documents) -/

/-- The escrow ledger: for each (userId, loanId) key that exists, the stored
`documentsReleased` flag. -/
abbrev EscrowLedger := List ((Nat × Nat) × Bool)

/-- Look up the `documentsReleased` flag of a loan in the ledger. -/
def lget : EscrowLedger → Nat → Nat → Option Bool
  | [], _, _ => none
  | e :: t, uid, lid => if e.1 == (uid, lid) then some e.2 else lget t uid lid

/-- Set the `documentsReleased` flag of a loan to true in the ledger. -/
def lsetReleased : EscrowLedger → Nat → Nat → EscrowLedger
  | [], _, _ => []
  | e :: t, uid, lid =>
    (if e.1 == (uid, lid) then (e.1, true) else e) :: lsetReleased t uid lid

/-- Modelled from the spec: `utils.loan_utils.check_and_release_documents` is
missing from the sources; modelled from spec section 4.2. Fails with
LoanNotFound when the loan is absent; releases (flips the flag to true and
returns true) if and only if the current date has reached the due date and
the flag is currently false; otherwise returns false with the ledger
unchanged, never erroring on a not-yet-eligible loan. -/
def check_and_release_documents (led : EscrowLedger) (uid lid : Nat)
    (dueDate currentDate : Nat) : Except String (Bool × EscrowLedger) :=
  match lget led uid lid with
  | none => .error "LoanNotFound"
  | some released =>
    if released then
      .ok (false, led)
    else if dueDate ≤ currentDate then
      .ok (true, lsetReleased led uid lid)
    else
      .ok (false, led)

/-! ## Identity ScoreComponent (app.py, verify_identity_documents, lines 369-536)

The embedding starts after the external extractor and the regex field
extraction: an `Evidence` value records the extracted PAN number, Aadhaar
number, name and phone (each possibly absent), and the authoritative
government-record store is a lookup function from PAN number to record. -/

/-- The evidence bundle: fields extracted from the uploaded documents
(app.py lines 428-439). `none` models a failed regex extraction. -/
structure Evidence where
  pan_number : Option String
  aadhaar_number : Option String
  name_extracted : Option String
  phone_extracted : Option String
deriving DecidableEq

/-- A document of the `gov_records` collection (app.py lines 452-470). -/
structure GovRecord where
  verified : Bool
  name : String
  phone : String
deriving DecidableEq

/-- Python truthiness of an optional string: present and non-empty. -/
def truthy : Option String → Bool
  | none => false
  | some s => !(s == "")

/-- The designated PAN bypass value (app.py line 448). -/
def PAN_BYPASS : String := "EMPPG7988Q"

/-- Result of the identity verification route: an HTTP error response, or a
success carrying the computed trust score, the two verification flags and
whether a government-record lookup was performed. -/
inductive IdResp where
  | err (status : Nat) (msg : String)
  | ok (trust_score : Nat) (pan_verified aadhaar_verified lookup_performed : Bool)
deriving DecidableEq

/-- The identity trust score computation (app.py lines 476-500): fixed point
buckets of 40 (PAN verified), 30 (Aadhaar extracted), 20 (extracted phone
equals the submitted one) and 10 (name extracted), capped at 100. -/
def identity_trust_score (pan_verified aadhaar_verified phone_ok name_ok : Bool) : Nat :=
  min ((if pan_verified then 40 else 0) + (if aadhaar_verified then 30 else 0)
      + (if phone_ok then 20 else 0) + (if name_ok then 10 else 0)) 100

/-- Whether the extracted phone is present and equal to the submitted phone
(app.py line 487). -/
def phone_ok (ev : Evidence) (phone_input : String) : Bool :=
  match ev.phone_extracted with
  | none => false
  | some p => !(p == "") && p == phone_input

/-- The success branch of identity verification: compute and persist the
identity trust score (app.py lines 476-532). -/
def identity_ok (ev : Evidence) (phone_input : String) (lookup_performed : Bool) : IdResp :=
  .ok (identity_trust_score true (truthy ev.aadhaar_number) (phone_ok ev phone_input)
        (truthy ev.name_extracted))
    true (truthy ev.aadhaar_number) lookup_performed

/-- The identity verification route (app.py lines 442-532), starting from the
extracted evidence, the submitted phone and the government-record store.
Rejects with 403 when PAN or name is missing, when the PAN has no
government record, when that record is unverified, or when name or phone
disagree with it; the bypass PAN value skips the lookup entirely. -/
def verify_identity_documents (ev : Evidence) (phone_input : String)
    (gov : String → Option GovRecord) : IdResp :=
  if !(truthy ev.pan_number) || !(truthy ev.name_extracted) then
    .err 403 "PAN or Name not verified in documents"
  else
    let pan := ev.pan_number.getD ""
    let name := ev.name_extracted.getD ""
    if pan == PAN_BYPASS then
      identity_ok ev phone_input false
    else
      match gov pan with
      | none => .err 403 "PAN not found in government records"
      | some g =>
        if !g.verified then
          .err 403 "Government record not verified"
        else if !(name.toLower == g.name.toLower) || !(phone_input == g.phone) then
          .err 403 "Details do not match government records"
        else
          identity_ok ev phone_input true

/-- Whether the route response is an EvidenceMismatch rejection (status 403). -/
def isErr403 : IdResp → Bool
  | .err s _ => s == 403
  | .ok _ _ _ _ => false

/-- The identity score persisted to the user record: present exactly on the
success path (app.py lines 506-519). -/
def persistedIdentityScore : IdResp → Option Nat
  | .err _ _ => none
  | .ok s _ _ _ => some s

/-- Claim-side predicate, following the words of the spec: the extracted
identity fields match the authoritative government record, i.e. the lookup of
the extracted PAN yields a pre-verified record whose name equals the
extracted name case-insensitively and whose phone equals the submitted
phone exactly. -/
def matches_gov_record (pan name phone_input : String)
    (gov : String → Option GovRecord) : Bool :=
  match gov pan with
  | none => false
  | some g => g.verified && name.toLower == g.name.toLower && phone_input == g.phone

/-! ## Financial ScoreComponent (app.py, verify_financial_documents, lines 540-666)

The embedding starts from the raw text returned by the external scorer and
reproduces the two regex searches over it: a case-insensitive
"Score: (1-3 digits)" search and a case-insensitive "Explanation: (rest)"
search. -/

/-- Python regex whitespace class. -/
def isSpaceChar (c : Char) : Bool :=
  c == ' ' || c == '\t' || c == '\n' || c == '\r' || c == '\x0b' || c == '\x0c'

/-- Drop leading whitespace, as the greedy `\s*` of the score regex. -/
def dropSpaces : List Char → List Char
  | [] => []
  | c :: cs => if isSpaceChar c then dropSpaces cs else c :: cs

/-- Take a greedy run of at most `n` leading decimal digits. -/
def takeDigits : Nat → List Char → List Char
  | 0, _ => []
  | _, [] => []
  | n + 1, c :: cs => if c.isDigit then c :: takeDigits n cs else []

/-- Numeric value of a digit string, most significant digit first. -/
def digitsToNat (l : List Char) : Nat :=
  l.foldl (fun acc c => acc * 10 + (c.toNat - 48)) 0

/-- Attempt to match the pattern of the regex `Score:\s*(\d{1,3})`
(case-insensitive) at the head of the text, returning the captured number. -/
def scoreAt : List Char → Option Nat
  | c1 :: c2 :: c3 :: c4 :: c5 :: c6 :: rest =>
    if c1.toLower == 's' && c2.toLower == 'c' && c3.toLower == 'o'
        && c4.toLower == 'r' && c5.toLower == 'e' && c6 == ':' then
      let ds := takeDigits 3 (dropSpaces rest)
      if ds.isEmpty then none else some (digitsToNat ds)
    else none
  | _ => none

/-- Leftmost match of the score pattern: `re.search` tries every start
position from the left and keeps the first that matches (app.py line 631). -/
def findScore : List Char → Option Nat
  | [] => none
  | c :: cs =>
    match scoreAt (c :: cs) with
    | some n => some n
    | none => findScore cs

/-- Case-insensitive literal match of `pat` (given in lowercase) against a
text head, returning the remainder on success. -/
def stripCI : List Char → List Char → Option (List Char)
  | [], rest => some rest
  | _ :: _, [] => none
  | p :: ps, c :: cs => if c.toLower == p then stripCI ps cs else none

/-- Remainder of the text after the leftmost occurrence of `pat`. -/
def findAfter (pat : List Char) : List Char → Option (List Char)
  | [] => none
  | c :: cs =>
    match stripCI pat (c :: cs) with
    | some rest => some rest
    | none => findAfter pat cs

/-- Strip trailing whitespace. -/
def trimTrailing (l : List Char) : List Char :=
  (dropSpaces l.reverse).reverse

/-- The regex `Explanation:\s*(.*)` with DOTALL (app.py line 632): everything
after the leftmost case-insensitive "Explanation:", then `.strip()`. -/
def findExplanation (l : List Char) : Option String :=
  match findAfter "explanation:".data l with
  | none => none
  | some rest => some (String.mk (trimTrailing (dropSpaces rest)))

/-- The fixed conservative fallback explanation (app.py line 636). -/
def FALLBACK_EXPLANATION : String := "Score could not be determined from documents."

/-- The financial scoring route (app.py lines 629-662), starting from the
text response of the external scorer: parse "Score: N", clamp it into
[0, 100], and take the parsed explanation; when no score pattern is found,
fall back to the fixed score of 5 and the fixed explanation. The returned
pair is both persisted to the user record and returned to the caller. -/
def verify_financial_documents (text_response : String) : Nat × String :=
  match findScore text_response.data with
  | none => (5, FALLBACK_EXPLANATION)
  | some n =>
    ((min 100 (max 0 n)), (findExplanation text_response.data).getD FALLBACK_EXPLANATION)

/-! ## Loan routes (app.py, loan_request lines 105-136 and loan_decision lines 240-264) -/

/-- A JSON value supplied for the `amount` field: either a numeric value
that `float(...)` converts, or a value on which `float(...)` raises. -/
inductive AmountVal where
  | num (q : ℚ)
  | nonNumeric
deriving DecidableEq

/-- The body of a loan-creation request; `none` models an absent key. -/
structure LoanRequestData where
  uid : Option String
  amount : Option AmountVal
  purpose : Option String
  wallet : Option String

/-- A stored loan document (app.py lines 123-130). -/
structure Loan where
  amount : ℚ
  purpose : String
  due_date : Nat
  status : String
  wallet : String
deriving DecidableEq

/-- An HTTP response: status code and JSON body as key-value pairs. -/
structure HttpResp where
  code : Nat
  body : List (String × String)
deriving DecidableEq

/-- The loan-creation route (app.py lines 105-136): 400 when a required field
is missing, when the amount does not convert to a number, or when it is not
positive; otherwise stores a pending loan due 30 days from `now` and returns
200 with a fixed status message. The second component is the stored loan. -/
def loan_request (d : LoanRequestData) (now : Nat) : HttpResp × Option Loan :=
  match d.uid, d.amount, d.purpose, d.wallet with
  | some _, some a, some purpose, some wallet =>
    match a with
    | .nonNumeric => (⟨400, [("error", "Invalid amount")]⟩, none)
    | .num q =>
      if q ≤ 0 then
        (⟨400, [("error", "Amount must be positive")]⟩, none)
      else
        (⟨200, [("status", "loan request submitted")]⟩,
          some ⟨q, purpose, now + 30, "pending", wallet⟩)
  | _, _, _, _ => (⟨400, [("error", "Missing required fields")]⟩, none)

/-- Claim-side predicate, following the words of the spec: a loan-creation
request is bad when a required field is missing or the amount is not a
positive number. -/
def bad_loan_request (d : LoanRequestData) : Bool :=
  match d.uid, d.amount, d.purpose, d.wallet with
  | some _, some a, some _, some _ =>
    match a with
    | .nonNumeric => true
    | .num q => decide (q ≤ 0)
  | _, _, _, _ => true

/-- The loan-decision route (app.py lines 240-264): 400 unless the decision
is "approved" or "rejected", 404 when the loan is absent, otherwise the
status is overwritten with the decision. Returns the stored loan after the
call and the status code. -/
def loan_decision (loan : Option Loan) (decision : String) : Option Loan × Nat :=
  if !(decision == "approved") && !(decision == "rejected") then
    (loan, 400)
  else
    match loan with
    | none => (none, 404)
    | some l => (some { l with status := decision }, 200)

/-- Concrete evidence bundle carrying the bypass PAN value and a name. -/
def evBypass : Evidence :=
  { pan_number := some "EMPPG7988Q", aadhaar_number := none,
    name_extracted := some "Alice", phone_extracted := none }

/-- An empty government-record store: no PAN has an authoritative record. -/
def govEmpty : String → Option GovRecord := fun _ => none

/-! ## Helper lemmas -/

/-- After marking a loan released, its lookup yields the true flag, provided
the loan exists. -/
theorem lget_lsetReleased (led : EscrowLedger) (uid lid : Nat) (b : Bool)
    (h : lget led uid lid = some b) :
    lget (lsetReleased led uid lid) uid lid = some true := by
  induction led with
  | nil => simp [lget] at h
  | cons e t ih =>
    by_cases he : e.1 == (uid, lid)
    · simp [lget, lsetReleased, he]
    · simp [lget, lsetReleased, he] at h ⊢
      exact ih h

/-- The identity trust score never exceeds its cap. -/
theorem identity_trust_score_le (a b c d : Bool) :
    identity_trust_score a b c d ≤ 100 := by
  cases a <;> cases b <;> cases c <;> cases d <;> decide

/-! ## Claims -/

/-- C1: calling the document-escrow release check twice in sequence for the
same loan with the same or a later current date performs at most one physical
release: if the first call releases and returns true, the second call
observes the released flag and returns false without erroring, leaving the
ledger unchanged. -/
theorem C1_release_idempotent (led : EscrowLedger) (uid lid due d1 d2 : Nat)
    (led' : EscrowLedger) (h12 : d1 ≤ d2)
    (h : check_and_release_documents led uid lid due d1 = .ok (true, led')) :
    check_and_release_documents led' uid lid due d2 = .ok (false, led') := by
  unfold check_and_release_documents at h ⊢
  rcases hg : lget led uid lid with _ | released
  · rw [hg] at h
    exact absurd h (by simp)
  rw [hg] at h
  cases released
  · simp only [Bool.false_eq_true, if_false] at h
    split_ifs at h with hd
    · simp only [Except.ok.injEq, Prod.mk.injEq, true_and] at h
      rw [← h, lget_lsetReleased led uid lid false hg]
      simp
    · simp at h
  · simp at h

theorem C1_release_idempotent_witness :
    (31 : Nat) ≤ 32 ∧
    check_and_release_documents [((0, 0), true)] 0 0 31 32
      = .ok (false, [((0, 0), true)]) :=
  ⟨by decide,
    C1_release_idempotent [((0, 0), false)] 0 0 31 31 32 [((0, 0), true)]
      (by decide) (by rfl)⟩

/-- C2: for every positive principal and dates with issueDate at most dueDate
and evaluationDate at most dueDate, the total due is exactly the principal,
with no penalty added. -/
theorem C2_total_due_on_time (p : ℚ) (issue due eval : Nat)
    (hp : 0 < p) (h1 : issue ≤ due) (h2 : eval ≤ due) :
    calculate_total_due p issue due eval = .ok p := by
  unfold calculate_total_due
  rw [if_neg (by omega), if_neg (by omega)]

theorem C2_total_due_on_time_witness :
    (0 : ℚ) < 10000 ∧ (0 : Nat) ≤ 30 ∧ (14 : Nat) ≤ 30 ∧
    calculate_total_due 10000 0 30 14 = .ok 10000 :=
  ⟨by decide, by decide, by decide,
    C2_total_due_on_time 10000 0 30 14 (by decide) (by decide) (by decide)⟩

/-- C3: for every positive principal and evaluation date strictly after the
due date, the total due is strictly greater than the principal, and it is
monotonically non-decreasing as the evaluation date grows further past the
due date. -/
theorem C3_total_due_overdue (p : ℚ) (issue due eval : Nat)
    (hp : 0 < p) (h1 : issue ≤ due) (h2 : due < eval) :
    ∃ t, calculate_total_due p issue due eval = .ok t ∧ p < t ∧
      ∀ eval2 t2, eval ≤ eval2 →
        calculate_total_due p issue due eval2 = .ok t2 → t ≤ t2 := by
  have hr : (0 : ℚ) < penaltyRatePerDay := by norm_num [penaltyRatePerDay]
  refine ⟨p + p * penaltyRatePerDay * ((eval - due : Nat) : ℚ), ?_, ?_, ?_⟩
  · unfold calculate_total_due
    rw [if_neg (by omega), if_pos h2]
  · have hd : (1 : ℚ) ≤ ((eval - due : Nat) : ℚ) := by
      exact_mod_cast Nat.one_le_iff_ne_zero.mpr (by omega)
    have hpos : 0 < p * penaltyRatePerDay * ((eval - due : Nat) : ℚ) :=
      mul_pos (mul_pos hp hr) (lt_of_lt_of_le one_pos hd)
    linarith
  · intro eval2 t2 he2 h
    unfold calculate_total_due at h
    rw [if_neg (by omega), if_pos (by omega)] at h
    simp only [Except.ok.injEq] at h
    rw [← h]
    have hmono : ((eval - due : Nat) : ℚ) ≤ ((eval2 - due : Nat) : ℚ) := by
      exact_mod_cast Nat.sub_le_sub_right he2 due
    exact add_le_add_left
      (mul_le_mul_of_nonneg_left hmono (le_of_lt (mul_pos hp hr))) p

theorem C3_total_due_overdue_witness :
    (0 : ℚ) < 10000 ∧ (0 : Nat) ≤ 30 ∧ (30 : Nat) < 40 ∧
    (∃ t, calculate_total_due 10000 0 30 40 = .ok t ∧ 10000 < t ∧
      ∀ eval2 t2, 40 ≤ eval2 →
        calculate_total_due 10000 0 30 eval2 = .ok t2 → t ≤ t2) :=
  ⟨by decide, by decide, by decide,
    C3_total_due_overdue 10000 0 30 40 (by decide) (by decide) (by decide)⟩

/-- C4: the identity trust score is always an integer in [0, 100]; awarding
all four point buckets yields exactly 100 and awarding none yields 0. -/
theorem C4_identity_score_bounds :
    (∀ a b c d : Bool, identity_trust_score a b c d ≤ 100) ∧
    identity_trust_score true true true true = 100 ∧
    identity_trust_score false false false false = 0 := by
  refine ⟨?_, by decide, by decide⟩
  intro a b c d
  cases a <;> cases b <;> cases c <;> cases d <;> decide

/-- C5 counterexample: with the bypass PAN extracted and a name present, the
extracted fields match no authoritative government record (the record store
is empty), yet identity verification does not reject with 403 — contradicting
the claim that a 403 rejection happens exactly when extraction fails or the
fields do not match the authoritative record. -/
theorem C5_counterexample :
    isErr403 (verify_identity_documents evBypass "9876543210" govEmpty) = false ∧
    truthy evBypass.pan_number = true ∧
    truthy evBypass.name_extracted = true ∧
    matches_gov_record "EMPPG7988Q" "Alice" "9876543210" govEmpty = false := by
  decide

/-- C5 as amended: identity verification rejects with 403 exactly when the
primary ID number or the name cannot be extracted, or when the extracted PAN
is not the designated bypass value and the extracted name together with the
submitted phone do not match a verified authoritative government record; and
an identity score is persisted exactly when there is no rejection. -/
theorem C5_mismatch_rejection (ev : Evidence) (phone : String)
    (gov : String → Option GovRecord) :
    (isErr403 (verify_identity_documents ev phone gov) = true ↔
      (truthy ev.pan_number = false ∨ truthy ev.name_extracted = false ∨
        ∃ pan name, ev.pan_number = some pan ∧ ev.name_extracted = some name ∧
          pan ≠ PAN_BYPASS ∧ matches_gov_record pan name phone gov = false)) ∧
    (persistedIdentityScore (verify_identity_documents ev phone gov) = none ↔
      isErr403 (verify_identity_documents ev phone gov) = true) := by
  rcases hp : ev.pan_number with _ | p
  · simp [verify_identity_documents, truthy, hp, isErr403, persistedIdentityScore]
  rcases hn : ev.name_extracted with _ | n
  · simp [verify_identity_documents, truthy, hp, hn, isErr403, persistedIdentityScore]
  by_cases hpe : p = ""
  · simp [verify_identity_documents, truthy, hp, hn, hpe, isErr403, persistedIdentityScore]
  by_cases hne : n = ""
  · simp [verify_identity_documents, truthy, hp, hn, hpe, hne, isErr403,
      persistedIdentityScore]
  by_cases hbp : p = PAN_BYPASS
  · simp [verify_identity_documents, truthy, hp, hn, hpe, hne, hbp, identity_ok,
      isErr403, persistedIdentityScore, PAN_BYPASS]
  rcases hg : gov p with _ | g
  · simp [verify_identity_documents, truthy, hp, hn, hpe, hne, hbp, hg,
      matches_gov_record, isErr403, persistedIdentityScore]
  by_cases hv : g.verified
  · by_cases hnm : n.toLower = g.name.toLower
    all_goals by_cases hph : phone = g.phone
    all_goals simp [verify_identity_documents, truthy, hp, hn, hpe, hne, hbp, hg,
      hv, hnm, hph, matches_gov_record, identity_ok, isErr403, persistedIdentityScore]
  · simp [verify_identity_documents, truthy, hp, hn, hpe, hne, hbp, hg, hv,
      matches_gov_record, isErr403, persistedIdentityScore]

/-- C6: when the extracted primary ID equals the bypass value and a name was
extracted, identity verification performs no authoritative-record lookup,
reports the PAN as verified, and returns a score of at least 50. -/
theorem C6_bypass_short_circuit (ev : Evidence) (phone : String)
    (gov : String → Option GovRecord)
    (hp : ev.pan_number = some PAN_BYPASS)
    (hn : truthy ev.name_extracted = true) :
    ∃ s a, verify_identity_documents ev phone gov = .ok s true a false ∧
      50 ≤ s := by
  refine ⟨identity_trust_score true (truthy ev.aadhaar_number)
      (phone_ok ev phone) (truthy ev.name_extracted),
    truthy ev.aadhaar_number, ?_, ?_⟩
  · have hpan : truthy (some PAN_BYPASS) = true := by decide
    simp [verify_identity_documents, hpan, hn, hp, identity_ok]
  · rw [hn]
    have h50 : ∀ a b : Bool, 50 ≤ identity_trust_score true a b true := by decide
    exact h50 _ _

theorem C6_bypass_short_circuit_witness :
    evBypass.pan_number = some PAN_BYPASS ∧
    truthy evBypass.name_extracted = true ∧
    ∃ s a, verify_identity_documents evBypass "9876543210" govEmpty
        = .ok s true a false ∧ 50 ≤ s :=
  ⟨by decide, by decide,
    C6_bypass_short_circuit evBypass "9876543210" govEmpty (by decide) (by decide)⟩

/-- C7: whenever the external-scorer response contains no score pattern, the
financial component returns (and persists) the fixed conservative fallback
score of 5 together with the fixed non-empty explanation, never an error. -/
theorem C7_financial_fallback (t : String)
    (h : findScore t.data = none) :
    verify_financial_documents t = (5, FALLBACK_EXPLANATION) ∧
    (verify_financial_documents t).2 ≠ "" := by
  have he : verify_financial_documents t = (5, FALLBACK_EXPLANATION) := by
    unfold verify_financial_documents
    rw [h]
  rw [he]
  exact ⟨rfl, by simp [FALLBACK_EXPLANATION]⟩

theorem C7_financial_fallback_witness :
    findScore "no valid data here".data = none ∧
    verify_financial_documents "no valid data here"
      = (5, FALLBACK_EXPLANATION) ∧
    (verify_financial_documents "no valid data here").2 ≠ "" :=
  ⟨by decide, C7_financial_fallback "no valid data here" (by decide)⟩

/-- A concrete valid loan-creation request. -/
def goodReq : LoanRequestData :=
  { uid := some "u1", amount := some (.num 100), purpose := some "books",
    wallet := some "0xabc" }

/-- C8 counterexample: a valid loan-creation request succeeds with 200, but
the response body is exactly the fixed status message — it carries no
generated loan identifier, contradicting the claim that success returns the
identifier in the response. -/
theorem C8_counterexample :
    bad_loan_request goodReq = false ∧
    (loan_request goodReq 0).1.code = 200 ∧
    (loan_request goodReq 0).1.body = [("status", "loan request submitted")] := by
  decide

/-- C8 as amended: loan creation returns 400 exactly when a required field is
missing or the amount is not a positive number; otherwise it returns 200
whose body is only the fixed status message (no loan identifier), and a
pending loan is stored. -/
theorem C8_loan_request_responses (d : LoanRequestData) (now : Nat) :
    ((loan_request d now).1.code = 400 ↔ bad_loan_request d = true) ∧
    ((loan_request d now).1.code = 400 ∨
      ((loan_request d now).1 = ⟨200, [("status", "loan request submitted")]⟩ ∧
        ∃ l, (loan_request d now).2 = some l ∧ l.status = "pending")) := by
  rcases d with ⟨u, a, p, w⟩
  rcases u with _ | u <;> rcases a with _ | a <;> rcases p with _ | p <;>
    rcases w with _ | w <;>
    simp [loan_request, bad_loan_request]
  rcases a with q | _
  · by_cases hq : q ≤ 0 <;> simp [loan_request, bad_loan_request, hq]
  · simp [loan_request, bad_loan_request]

/-- C9 counterexample: a decision call on a rejected loan with decision
"approved" moves the loan out of rejected into approved, contradicting the
claim that no sequence of decision calls revives a rejected loan. -/
theorem C9_counterexample :
    Loan.status ⟨100, "books", 30, "rejected", "w"⟩ = "rejected" ∧
    (loan_decision (some ⟨100, "books", 30, "rejected", "w"⟩) "approved").1
      = some ⟨100, "books", 30, "approved", "w"⟩ ∧
    Loan.status ⟨100, "books", 30, "approved", "w"⟩ = "approved" := by
  decide

/-- C9 as amended: the decision operation either leaves the stored loan
unchanged or sets its status to "approved" or "rejected"; in particular no
decision call ever moves a loan back to pending, but a rejected loan can be
re-decided to approved. -/
theorem C9_decision_transitions (loan : Option Loan) (decision : String) :
    (loan_decision loan decision).1 = loan ∨
    ∃ l', (loan_decision loan decision).1 = some l' ∧
      (l'.status = "approved" ∨ l'.status = "rejected") := by
  by_cases ha : decision = "approved"
  · cases loan with
    | none => left; simp [loan_decision, ha]
    | some l =>
      right
      exact ⟨{ l with status := decision }, by simp [loan_decision, ha],
        Or.inl (by simp [ha])⟩
  by_cases hr : decision = "rejected"
  · cases loan with
    | none => left; simp [loan_decision, hr]
    | some l =>
      right
      exact ⟨{ l with status := decision }, by simp [loan_decision, hr],
        Or.inr (by simp [hr])⟩
  · left
    simp [loan_decision, ha, hr]

/-- C10: every score persisted into the trust-score record is in [0, 100]:
the financial score is clamped (even an out-of-band scorer value of 999,
read through the three-digit parser, is stored as 100) and the identity
score is capped at 100; both are natural numbers, hence at least 0. -/
theorem C10_persisted_scores_bounded :
    (∀ t : String, (verify_financial_documents t).1 ≤ 100) ∧
    (verify_financial_documents "Score: 999").1 = 100 ∧
    (∀ ev phone gov,
      (persistedIdentityScore (verify_identity_documents ev phone gov)).getD 0
        ≤ 100) := by
  refine ⟨?_, by decide, ?_⟩
  · intro t
    unfold verify_financial_documents
    cases h : findScore t.data with
    | none => simp
    | some n => exact Nat.min_le_left _ _
  · intro ev phone gov
    have hok : ∀ lp, (persistedIdentityScore (identity_ok ev phone lp)).getD 0
        ≤ 100 := by
      intro lp
      simp only [identity_ok, persistedIdentityScore, Option.getD_some]
      exact identity_trust_score_le _ _ _ _
    unfold verify_identity_documents
    split
    · decide
    · dsimp only
      split
      · exact hok _
      · split
        · decide
        · split
          · decide
          · split
            · decide
            · exact hok _

end TrustBridge
